import Mathlib

/-!
Verification of the process-supervisor and CSV-tailing core of the
DNS-tunneling-detection GUI (`gui.py`), shallowly embedded in Lean 4.

The embedding models:
* `load_captured_queries` — the incremental tail reader over `dns_log.csv`;
* `load_suspicious_queries` — the snapshot reader over `dns_predictions.csv`;
* `start_capture` / `stop_capture` — the capture-process supervisor;
* `analyse` — the precondition-checked analysis launcher.

Filesystem reads are modelled by a `ReadResult` value (absent file,
unreadable file, or parsed rows); process-environment effects (launch
success, liveness after the grace period, termination outcomes) are
modelled by explicit environment records, so each Python method becomes a
pure function from state and environment to result and next state.
-/

/-- One field of a row as seen through `csv.DictReader`: the column may be
absent from the header (the key is missing from the dict entirely), the
data row may be shorter than the header (the reader fills the key with its
`restval`, `None`), or the field carries a string value. -/
inductive CsvField where
  | absent
  | noneVal
  | val (s : String)
deriving Repr, DecidableEq

/-- A Python value retrieved from a row dict: `None` or a string. -/
inductive PyVal where
  | none
  | str (s : String)
deriving Repr, DecidableEq

/-- `row.get(key, default)`: an absent key yields the default, a key
filled with `None` by the reader yields `None`, otherwise the stored
string. -/
def pyGet : CsvField → String → PyVal
  | CsvField.absent, d => PyVal.str d
  | CsvField.noneVal, _ => PyVal.none
  | CsvField.val s, _ => PyVal.str s

/-- Python f-string interpolation of a retrieved value: `None` renders as
the text "None", a string renders as itself. -/
def render : PyVal → String
  | PyVal.none => "None"
  | PyVal.str s => s

/-- One parsed row of `dns_log.csv` as seen through `csv.DictReader`. -/
structure CapturedRow where
  timestamp : CsvField
  qname : CsvField
  src_ip : CsvField
  dst_ip : CsvField
  is_response : CsvField
deriving Repr, DecidableEq

/-- The values a captured row contributes to the display: the rendered
texts interpolated into the emitted line, together with the query/response
tag derived from `is_response` (gui.py lines 362–372). -/
structure DisplayRecord where
  timestamp : String
  qname : String
  src_ip : String
  dst_ip : String
  is_response : String
  query_type : String
deriving Repr, DecidableEq

/-- `row.get('timestamp', 'N/A')` … `row.get('is_response', '0')` followed
by the display formatting: the first four fields default to `"N/A"` when
their column is absent and render as "None" when the reader filled them
with `None`; `is_response` defaults to `"0"`, and the row is tagged
"RESPONSE" exactly when its retrieved value equals the string `'1'`. -/
def formatRow (r : CapturedRow) : DisplayRecord :=
  let ir := pyGet r.is_response "0"
  { timestamp := render (pyGet r.timestamp "N/A")
    qname := render (pyGet r.qname "N/A")
    src_ip := render (pyGet r.src_ip "N/A")
    dst_ip := render (pyGet r.dst_ip "N/A")
    is_response := render ir
    query_type := if ir = PyVal.str "1" then "RESPONSE" else "QUERY" }

/-- Outcome of attempting to open and parse a CSV file: the file may be
absent (`Path.exists` false), the read may raise (locked / partial write),
or it parses into a list of rows. -/
inductive ReadResult (α : Type) where
  | absent
  | unreadable
  | ok (rows : List α)
deriving Repr, DecidableEq

/-- A supervised child process as the GUI sees it: its pid, what
`poll()` returns after the 0.5 s grace period (`none` = still running,
`some code` = already exited), and what `communicate(timeout=1)` yields
(`none` = raised, `some (stdout, stderr)` otherwise). -/
structure Proc where
  pid : Nat
  pollAfterGrace : Option Int
  commResult : Option (String × String)
deriving Repr, DecidableEq

/-- The mutable fields of `DNSTunnelingGUI` the core logic touches. -/
structure GuiState where
  capture_process : Option Proc
  monitoring : Bool
  last_capture_count : Nat
deriving Repr, DecidableEq

/-- `load_captured_queries` (gui.py 344–394): absent file → return with no
change; any read exception → swallowed, no change; otherwise compare the
total row count with `last_capture_count` and, if it grew, emit exactly
the rows beyond the old count and advance the counter to the new total. -/
def load_captured_queries (st : GuiState) (file : ReadResult CapturedRow) :
    List DisplayRecord × GuiState :=
  match file with
  | ReadResult.absent => ([], st)
  | ReadResult.unreadable => ([], st)
  | ReadResult.ok rows =>
      if st.last_capture_count < rows.length then
        ((rows.drop st.last_capture_count).map formatRow,
          { st with last_capture_count := rows.length })
      else
        ([], st)

/-- A polling trace: between successive `load_captured_queries` calls a
batch of rows is appended to the file; each step polls the grown file and
the outputs are concatenated. -/
def pollTrace (st : GuiState) (file : List CapturedRow) :
    List (List CapturedRow) → List DisplayRecord × GuiState
  | [] => ([], st)
  | b :: bs =>
      let step := load_captured_queries st (ReadResult.ok (file ++ b))
      let rest := pollTrace step.2 (file ++ b) bs
      (step.1 ++ rest.1, rest.2)

/-- `needle` matches at the head of the second character list. -/
def matchesAt : List Char → List Char → Bool
  | [], _ => true
  | _ :: _, [] => false
  | a :: as, b :: bs => a == b && matchesAt as bs

/-- `needle` occurs contiguously somewhere in the character list
(Python's `needle in haystack` on strings). -/
def containsSeq (needle : List Char) : List Char → Bool
  | [] => matchesAt needle []
  | l@(_ :: t) => matchesAt needle l || containsSeq needle t

/-- Python `needle in hay` substring test. -/
def strContains (hay needle : String) : Bool :=
  containsSeq needle.data hay.data

/-- gui.py line 421: `'Suspicious' in prediction or '🔴' in prediction`. -/
def isSuspicious (prediction : String) : Bool :=
  strContains prediction "Suspicious" || strContains prediction "🔴"

/-- One parsed row of `dns_predictions.csv`. -/
structure PredictionRow where
  qname : Option String
  prediction : Option String
  confidence : Option String
deriving Repr, DecidableEq

/-- The `for row in reader` loop of `load_suspicious_queries`
(gui.py 414–425): increments `total_count` for every row and
`suspicious_count` for every row whose prediction label passes
`isSuspicious`; `row.get('prediction', '')` defaults to the empty string. -/
def suspLoop : List PredictionRow → Nat → Nat → Nat × Nat
  | [], total, susp => (total, susp)
  | r :: rs, total, susp =>
      suspLoop rs (total + 1)
        (if isSuspicious (r.prediction.getD "") then susp + 1 else susp)

/-- The observable outcome of `load_suspicious_queries`: the three
distinguishable UI states it can leave behind (gui.py 396–445). -/
inductive SuspiciousView where
  | noAnalysisYet
  | loadError
  | analyzed (total suspicious : Nat)
deriving Repr, DecidableEq

/-- `load_suspicious_queries` (gui.py 396–445): absent predictions file →
the "No analysis performed yet" view; a read exception → the error view;
otherwise the analyzed view with the loop's total and suspicious counts. -/
def load_suspicious_queries (file : ReadResult PredictionRow) : SuspiciousView :=
  match file with
  | ReadResult.absent => SuspiciousView.noAnalysisYet
  | ReadResult.unreadable => SuspiciousView.loadError
  | ReadResult.ok rows =>
      let counts := suspLoop rows 0 0
      SuspiciousView.analyzed counts.1 counts.2

/-- What `subprocess.Popen` did when `start_capture` launched the capture
script: raised an exception, or returned a process handle. -/
inductive LaunchResult where
  | raises (msg : String)
  | ok (p : Proc)
deriving Repr, DecidableEq

/-- The environment a `start_capture` call runs against. -/
structure StartEnv where
  scriptExists : Bool
  launch : LaunchResult
deriving Repr, DecidableEq

/-- The user-visible outcome of `start_capture`. -/
inductive StartResult where
  | scriptNotFound
  | startFailed (msg : String)
  | immediateExit (diagnostics : String)
  | started
deriving Repr, DecidableEq

/-- The diagnostics text built at gui.py 250–260 for an immediately-exited
process: stderr, then stdout on a new line, with fallback messages when
`communicate` yields nothing or raises. -/
def immediateExitMsg (comm : Option (String × String)) : String :=
  match comm with
  | none => "Process exited immediately. Check console window for details."
  | some (out, err) =>
      let m1 := if err ≠ "" then err else ""
      let m2 := if out ≠ "" then m1 ++ "\n" ++ out else m1
      if m2 = "" then "Process exited immediately. Check console for details."
      else m2

/-- `start_capture` (gui.py 216–286): checks only that `capture.py` exists
(there is no check of `capture_process`), launches, sleeps ≈0.5 s, then
polls. An already-exited process yields the immediate-exit error and
resets `capture_process` to `None`; a live process becomes the new
supervised process with `monitoring := true` and `last_capture_count := 0`.
A `Popen` exception leaves the state untouched. -/
def start_capture (st : GuiState) (env : StartEnv) : StartResult × GuiState :=
  if env.scriptExists = false then
    (StartResult.scriptNotFound, st)
  else
    match env.launch with
    | LaunchResult.raises msg => (StartResult.startFailed msg, st)
    | LaunchResult.ok p =>
        match p.pollAfterGrace with
        | some _ =>
            (StartResult.immediateExit (immediateExitMsg p.commResult),
              { st with capture_process := none })
        | none =>
            (StartResult.started,
              { st with capture_process := some p, monitoring := true,
                        last_capture_count := 0 })

/-- Platform family branched on by `sys.platform == "win32"`. -/
inductive Platform where
  | win32
  | posix
deriving Repr, DecidableEq

/-- Whether a `wait(timeout)` call returned or raised `TimeoutExpired`. -/
inductive WaitOutcome where
  | returned
  | timedOut
deriving Repr, DecidableEq

/-- The environment a `stop_capture` call runs against: which platform,
whether `poll()` still reports the process alive, and which of the
termination primitives raise. -/
structure StopEnv where
  platform : Platform
  stillRunning : Bool
  taskkillRaises : Bool
  terminateRaises : Bool
  waitOutcome : WaitOutcome
  killRaises : Bool
deriving Repr, DecidableEq

/-- The user-visible outcome of `stop_capture`. -/
inductive StopResult where
  | noop
  | stopped
  | warning
deriving Repr, DecidableEq

/-- Whether the termination sequence of `stop_capture` (gui.py 295–320)
escapes with an exception. On win32: `taskkill`, and on its failure the
`terminate`/`wait(2)`/`kill` fallback; on posix: `terminate`/`wait(3)`/`kill`. -/
def terminateBody (env : StopEnv) : Bool :=
  match env.platform with
  | Platform.win32 =>
      if env.taskkillRaises then
        if env.terminateRaises then true
        else
          match env.waitOutcome with
          | WaitOutcome.returned => false
          | WaitOutcome.timedOut => env.killRaises
      else false
  | Platform.posix =>
      if env.terminateRaises then true
      else
        match env.waitOutcome with
        | WaitOutcome.returned => false
        | WaitOutcome.timedOut => env.killRaises

/-- `stop_capture` (gui.py 288–342): silent return when no process is
supervised; otherwise terminate if still running, and — whether the try
block succeeds or the except branch runs — reset `capture_process` to
`None` and `monitoring` to `false`. -/
def stop_capture (st : GuiState) (env : StopEnv) : StopResult × GuiState :=
  match st.capture_process with
  | none => (StopResult.noop, st)
  | some _ =>
      let raised := if env.stillRunning then terminateBody env else false
      if raised then
        (StopResult.warning, { st with capture_process := none, monitoring := false })
      else
        (StopResult.stopped, { st with capture_process := none, monitoring := false })

/-- The environment an `analyse` call runs against: which required
artifacts exist, the capture log's size, and what the synchronous
`subprocess.call` of `predict.py` does. -/
structure AnalyseEnv where
  logExists : Bool
  logSize : Nat
  modelExists : Bool
  scriptExists : Bool
  runRaises : Bool
  exitCode : Int
deriving Repr, DecidableEq

/-- The user-visible outcome of `analyse`. -/
inductive AnalyseResult where
  | noCaptureData
  | modelNotFound
  | scriptNotFound
  | completed
  | failed (code : Int)
  | runError
deriving Repr, DecidableEq

/-- `analyse` (gui.py 463–532): checks `dns_log.csv` exists and is
non-empty, then `best_dns_model.pkl` exists, then `predict.py` exists —
in that order, returning on the first failure — and only then invokes the
prediction script. The second component records whether the script was
invoked. -/
def analyse (env : AnalyseEnv) : AnalyseResult × Bool :=
  if env.logExists = false ∨ env.logSize = 0 then
    (AnalyseResult.noCaptureData, false)
  else if env.modelExists = false then
    (AnalyseResult.modelNotFound, false)
  else if env.scriptExists = false then
    (AnalyseResult.scriptNotFound, false)
  else if env.runRaises = true then
    (AnalyseResult.runError, true)
  else if env.exitCode = 0 then
    (AnalyseResult.completed, true)
  else
    (AnalyseResult.failed env.exitCode, true)

/-! Sample concrete rows used by witnesses. -/

/-- A fully-populated captured row. -/
def sampleRow0 : CapturedRow :=
  ⟨CsvField.val "t0", CsvField.val "a.example.com", CsvField.val "10.0.0.1",
    CsvField.val "8.8.8.8", CsvField.val "0"⟩

/-- A second fully-populated captured row. -/
def sampleRow1 : CapturedRow :=
  ⟨CsvField.val "t1", CsvField.val "b.example.com", CsvField.val "10.0.0.2",
    CsvField.val "8.8.4.4", CsvField.val "1"⟩

/-- A captured row with every column absent from the header. -/
def emptyRow : CapturedRow :=
  ⟨CsvField.absent, CsvField.absent, CsvField.absent, CsvField.absent, CsvField.absent⟩

/-- A captured row from a short data line: every key present but filled
with `None` by the reader. -/
def shortRow : CapturedRow :=
  ⟨CsvField.noneVal, CsvField.noneVal, CsvField.noneVal, CsvField.noneVal, CsvField.noneVal⟩

/-- A benign prediction row. -/
def benignRow : PredictionRow := ⟨some "a.example.com", some "Benign", some "90"⟩

/-- A live process handle. -/
def aliveProc : Proc := ⟨11, none, none⟩

/-- A second live process handle. -/
def aliveProc2 : Proc := ⟨22, none, none⟩

/-- A process that has already exited (code 1) by the time it is polled,
with captured stderr available. -/
def deadProc : Proc := ⟨33, some 1, some ("", "permission denied")⟩

/-! Helper lemmas shared by the claim theorems. -/

/-- A poll of a file that grew from `file` to `file ++ b`, starting from a
tail counter equal to `file.length`, emits exactly `b` (formatted) and
advances the counter to the new total. -/
theorem load_captured_queries_step (cp : Option Proc) (m : Bool)
    (file b : List CapturedRow) :
    load_captured_queries ⟨cp, m, file.length⟩ (ReadResult.ok (file ++ b)) =
      (b.map formatRow, ⟨cp, m, (file ++ b).length⟩) := by
  rcases b with _ | ⟨x, xs⟩
  · simp [load_captured_queries]
  · have hlt : file.length < (file ++ x :: xs).length := by
      simp [List.length_append]
    simp [load_captured_queries, hlt, List.drop_left]

/-- Unrolling a whole polling trace from a synchronized tail counter:
the concatenated output is the concatenation of the appended batches and
the counter ends at the total row count. -/
theorem pollTrace_spec (cp : Option Proc) (m : Bool) (file : List CapturedRow)
    (bs : List (List CapturedRow)) :
    pollTrace ⟨cp, m, file.length⟩ file bs =
      (bs.flatten.map formatRow, ⟨cp, m, file.length + bs.flatten.length⟩) := by
  induction bs generalizing file with
  | nil => simp [pollTrace]
  | cons b bs ih =>
      simp only [pollTrace, load_captured_queries_step, ih (file ++ b)]
      simp [List.flatten, List.map_append, List.length_append, Nat.add_assoc]

/-- The counting loop of the snapshot reader adds the row count to the
running total and the count of suspicious labels to the running
suspicious counter. -/
theorem suspLoop_spec (rows : List PredictionRow) (t s : Nat) :
    suspLoop rows t s =
      (t + rows.length,
        s + rows.countP (fun r => isSuspicious (r.prediction.getD ""))) := by
  induction rows generalizing t s with
  | nil => simp [suspLoop]
  | cons r rs ih =>
      rw [suspLoop, ih, List.countP_cons]
      rcases hp : isSuspicious (r.prediction.getD "") with _ | _ <;>
        · simp [hp, Prod.ext_iff]
          omega

/-! Claim theorems. -/

/-- C1: for any sequence of appends to the capture CSV, repeated
`load_captured_queries` calls return every newly appended row exactly once
each, in file order, with no duplicates or omissions, and each call that
observes new rows advances `last_capture_count` to the new total. -/
theorem captured_tail_monotonic (st : GuiState) (file : List CapturedRow)
    (bs : List (List CapturedRow)) (h : st.last_capture_count = file.length) :
    (pollTrace st file bs).1 = bs.flatten.map formatRow ∧
      (pollTrace st file bs).2.last_capture_count = file.length + bs.flatten.length := by
  obtain ⟨cp, m, lc⟩ := st
  cases h
  rw [pollTrace_spec]
  exact ⟨rfl, rfl⟩

/-- C1 witness: a trace of three polls with batches of size 1, 0 and 2
starting from an empty file returns exactly the three appended rows and
ends with `last_capture_count = 3`. -/
theorem captured_tail_monotonic_witness :
    (pollTrace ⟨none, false, 0⟩ [] [[sampleRow0], [], [sampleRow0, sampleRow1]]).1 =
        ([[sampleRow0], [], [sampleRow0, sampleRow1]] :
          List (List CapturedRow)).flatten.map formatRow ∧
      (pollTrace ⟨none, false, 0⟩ [] [[sampleRow0], [], [sampleRow0, sampleRow1]]).2.last_capture_count =
        0 + ([[sampleRow0], [], [sampleRow0, sampleRow1]] :
          List (List CapturedRow)).flatten.length :=
  captured_tail_monotonic ⟨none, false, 0⟩ [] [[sampleRow0], [], [sampleRow0, sampleRow1]] rfl

/-- C2 counterexample: with a live process already supervised, a start
invocation does not fail — it reports success and replaces
`capture_process` with the newly launched process, because `start_capture`
never inspects `capture_process` before launching. -/
theorem start_no_already_running_guard_cex :
    (start_capture ⟨some aliveProc, true, 7⟩ ⟨true, LaunchResult.ok aliveProc2⟩).1 =
        StartResult.started ∧
      (start_capture ⟨some aliveProc, true, 7⟩ ⟨true, LaunchResult.ok aliveProc2⟩).2.capture_process =
        some aliveProc2 :=
  ⟨rfl, rfl⟩

/-- C2 amended: `start_capture` performs no already-running check; whatever
process is currently supervised, a successful launch that survives the
grace period reports success and overwrites the supervisor state with the
new process (the single-session invariant is maintained only by the UI
hiding the Start button). -/
theorem start_ignores_existing_process (st : GuiState) (p : Proc)
    (hp : p.pollAfterGrace = none) :
    start_capture st ⟨true, LaunchResult.ok p⟩ =
      (StartResult.started, ⟨some p, true, 0⟩) := by
  simp [start_capture, hp]

/-- C2 amended witness: starting while `aliveProc` is supervised succeeds
and replaces it with `aliveProc2`. -/
theorem start_ignores_existing_process_witness :
    start_capture ⟨some aliveProc, true, 7⟩ ⟨true, LaunchResult.ok aliveProc2⟩ =
      (StartResult.started, ⟨some aliveProc2, true, 0⟩) :=
  start_ignores_existing_process ⟨some aliveProc, true, 7⟩ aliveProc2 rfl

/-- C3: `stop_capture` is a non-raising no-op when no process is
supervised; in every case — graceful stop, forced kill, or a termination
sequence that raises — the post-state has `capture_process = none`; and a
termination sequence that raises is surfaced as the warning result (while
one that does not raise reports a clean stop), never by leaving the
supervisor in a running state. -/
theorem stop_always_idle (st : GuiState) (env : StopEnv) :
    (st.capture_process = none → stop_capture st env = (StopResult.noop, st)) ∧
      (stop_capture st env).2.capture_process = none ∧
      (st.capture_process ≠ none → env.stillRunning = true →
        terminateBody env = true →
        (stop_capture st env).1 = StopResult.warning) ∧
      (st.capture_process ≠ none →
        (env.stillRunning = true → terminateBody env = false) →
        (stop_capture st env).1 = StopResult.stopped) := by
  obtain ⟨cp, m, lc⟩ := st
  rcases cp with _ | p
  · exact ⟨fun _ => rfl, rfl, fun h => absurd rfl h, fun h => absurd rfl h⟩
  · refine ⟨fun h => absurd h (by simp), ?_, fun _ h1 h2 => ?_, fun _ h3 => ?_⟩
    · cases hsr : env.stillRunning <;> cases htb : terminateBody env <;>
        simp [stop_capture, hsr, htb]
    · simp [stop_capture, h1, h2]
    · cases hsr : env.stillRunning
      · simp [stop_capture, hsr]
      · simp [stop_capture, hsr, h3 hsr]

/-- C3 witness: stopping when idle is a no-op; stopping a supervised
process in an environment where terminate, wait, and kill all fail leaves
`capture_process = none` and reports the warning result; and stopping an
already-exited supervised process reports a clean stop. -/
theorem stop_always_idle_witness :
    stop_capture ⟨none, false, 3⟩
        ⟨Platform.posix, true, false, true, WaitOutcome.timedOut, true⟩ =
      (StopResult.noop, ⟨none, false, 3⟩) ∧
      (stop_capture ⟨some aliveProc, true, 3⟩
          ⟨Platform.posix, true, false, true, WaitOutcome.timedOut, true⟩).2.capture_process =
        none ∧
      (stop_capture ⟨some aliveProc, true, 3⟩
          ⟨Platform.posix, true, false, true, WaitOutcome.timedOut, true⟩).1 =
        StopResult.warning ∧
      (stop_capture ⟨some aliveProc, true, 3⟩
          ⟨Platform.posix, false, false, true, WaitOutcome.timedOut, true⟩).1 =
        StopResult.stopped :=
  ⟨(stop_always_idle ⟨none, false, 3⟩
      ⟨Platform.posix, true, false, true, WaitOutcome.timedOut, true⟩).1 rfl,
   (stop_always_idle ⟨some aliveProc, true, 3⟩
      ⟨Platform.posix, true, false, true, WaitOutcome.timedOut, true⟩).2.1,
   (stop_always_idle ⟨some aliveProc, true, 3⟩
      ⟨Platform.posix, true, false, true, WaitOutcome.timedOut, true⟩).2.2.1
      (by simp) rfl rfl,
   (stop_always_idle ⟨some aliveProc, true, 3⟩
      ⟨Platform.posix, false, false, true, WaitOutcome.timedOut, true⟩).2.2.2
      (by simp) (fun h => Bool.noConfusion h)⟩

/-- C4: when the launched process has already exited at the post-grace
poll, `start_capture` fails with the immediate-exit error carrying the
best-effort diagnostics built from the process's captured output, and the
supervisor is reset to idle (`capture_process = none`), never left
running. -/
theorem immediate_exit_detected (st : GuiState) (env : StartEnv) (p : Proc)
    (code : Int) (hs : env.scriptExists = true)
    (hl : env.launch = LaunchResult.ok p)
    (hp : p.pollAfterGrace = some code) :
    (start_capture st env).1 =
        StartResult.immediateExit (immediateExitMsg p.commResult) ∧
      (start_capture st env).2.capture_process = none ∧
      (start_capture st env).1 ≠ StartResult.started := by
  obtain ⟨se, l⟩ := env
  cases hs
  cases hl
  simp [start_capture, hp]

/-- C4 witness: launching `deadProc` (exit code 1 within the grace period,
stderr "permission denied") yields the immediate-exit error and an idle
supervisor. -/
theorem immediate_exit_detected_witness :
    (start_capture ⟨none, false, 0⟩ ⟨true, LaunchResult.ok deadProc⟩).1 =
        StartResult.immediateExit (immediateExitMsg deadProc.commResult) ∧
      (start_capture ⟨none, false, 0⟩ ⟨true, LaunchResult.ok deadProc⟩).2.capture_process =
        none ∧
      (start_capture ⟨none, false, 0⟩ ⟨true, LaunchResult.ok deadProc⟩).1 ≠
        StartResult.started :=
  immediate_exit_detected ⟨none, false, 0⟩ ⟨true, LaunchResult.ok deadProc⟩
    deadProc 1 rfl rfl rfl

/-- C5: the snapshot reader distinguishes "never analyzed" from "zero
suspicious": an absent predictions file yields the no-analysis-yet view,
while a present file whose rows are all non-suspicious yields the analyzed
view with `total = rows.length` and `suspicious = 0`, and the two views
are distinct for every row count. -/
theorem snapshot_distinguishes (rows : List PredictionRow)
    (h : ∀ r ∈ rows, isSuspicious (r.prediction.getD "") = false) :
    load_suspicious_queries ReadResult.absent = SuspiciousView.noAnalysisYet ∧
      load_suspicious_queries (ReadResult.ok rows) =
        SuspiciousView.analyzed rows.length 0 ∧
      ∀ n k : Nat, SuspiciousView.noAnalysisYet ≠ SuspiciousView.analyzed n k := by
  refine ⟨rfl, ?_, fun n k => by simp⟩
  simp only [load_suspicious_queries, suspLoop_spec, Nat.zero_add]
  have hc : rows.countP (fun r => isSuspicious (r.prediction.getD "")) = 0 :=
    List.countP_eq_zero.mpr (fun r hr => by simp [h r hr])
  rw [hc]

/-- C5 witness: an absent file versus a one-row file containing only a
benign prediction. -/
theorem snapshot_distinguishes_witness :
    load_suspicious_queries ReadResult.absent = SuspiciousView.noAnalysisYet ∧
      load_suspicious_queries (ReadResult.ok [benignRow]) =
        SuspiciousView.analyzed 1 0 ∧
      ∀ n k : Nat, SuspiciousView.noAnalysisYet ≠ SuspiciousView.analyzed n k :=
  snapshot_distinguishes [benignRow] (by decide)

/-- C6: the snapshot reader counts exactly the rows whose prediction label
passes the substring test for either encoding of the positive marker;
"Suspicious - tunneling" and "🔴" both classify as suspicious, "Benign"
does not. -/
theorem suspicious_substring_classification :
    (∀ rows : List PredictionRow,
        load_suspicious_queries (ReadResult.ok rows) =
          SuspiciousView.analyzed rows.length
            (rows.countP (fun r => isSuspicious (r.prediction.getD "")))) ∧
      (∀ label : String,
        isSuspicious label =
          (strContains label "Suspicious" || strContains label "🔴")) ∧
      isSuspicious "Suspicious - tunneling" = true ∧
      isSuspicious "🔴" = true ∧
      isSuspicious "Benign" = false := by
  refine ⟨fun rows => ?_, fun label => rfl, by decide, by decide, by decide⟩
  simp [load_suspicious_queries, suspLoop_spec]

/-- C7: `analyse` checks its preconditions in a fixed order — capture log
present and non-empty, then model artifact, then prediction script — so an
absent or empty log yields `noCaptureData` even when the model is also
missing, a present log with a missing model yields `modelNotFound` even
when the script is also missing, and the script is never invoked when any
precondition fails. -/
theorem analyse_fail_fast (env : AnalyseEnv) :
    ((env.logExists = false ∨ env.logSize = 0) →
        analyse env = (AnalyseResult.noCaptureData, false)) ∧
      ((¬(env.logExists = false ∨ env.logSize = 0)) → env.modelExists = false →
        analyse env = (AnalyseResult.modelNotFound, false)) ∧
      ((env.logExists = false ∨ env.logSize = 0 ∨ env.modelExists = false ∨
          env.scriptExists = false) → (analyse env).2 = false) := by
  refine ⟨fun h => ?_, fun hlog hm => ?_, ?_⟩
  · unfold analyse
    rw [if_pos h]
  · unfold analyse
    rw [if_neg hlog, if_pos hm]
  · rintro (h | h | h | h)
    · unfold analyse
      rw [if_pos (Or.inl h)]
    · unfold analyse
      rw [if_pos (Or.inr h)]
    · by_cases hlog : env.logExists = false ∨ env.logSize = 0
      · unfold analyse
        rw [if_pos hlog]
      · unfold analyse
        rw [if_neg hlog, if_pos h]
    · by_cases hlog : env.logExists = false ∨ env.logSize = 0
      · unfold analyse
        rw [if_pos hlog]
      · by_cases hm : env.modelExists = false
        · unfold analyse
          rw [if_neg hlog, if_pos hm]
        · unfold analyse
          rw [if_neg hlog, if_neg hm, if_pos h]

/-- C7 witness: an empty project directory (log absent, model absent,
script absent) yields `noCaptureData` and the script is not invoked. -/
theorem analyse_fail_fast_witness :
    analyse ⟨false, 0, false, false, false, 0⟩ =
        (AnalyseResult.noCaptureData, false) ∧
      (analyse ⟨false, 0, false, false, false, 0⟩).2 = false :=
  ⟨(analyse_fail_fast ⟨false, 0, false, false, false, 0⟩).1 (Or.inl rfl),
   (analyse_fail_fast ⟨false, 0, false, false, false, 0⟩).2.2 (Or.inl rfl)⟩

/-- C8 counterexample: a row whose `is_response` column is absent gets the
default `"0"`, not the sentinel `"N/A"` the claim states; and a field
missing from a short data row (filled with `None` by the reader) displays
as "None", not `"N/A"`. -/
theorem is_response_default_cex :
    ¬ (formatRow emptyRow).is_response = "N/A" ∧
      ¬ (formatRow shortRow).timestamp = "N/A" := by
  refine ⟨?_, ?_⟩ <;> decide

/-- C8 amended: missing fields never fail the row, but the substituted
value depends on how the field is missing: when the column is absent from
the CSV header, `timestamp`, `qname`, `src_ip` and `dst_ip` get the
sentinel "N/A" and `is_response` gets "0"; when the field is missing from
a short data row the reader fills it with `None`, which displays as the
text "None"; and a row whose `is_response` is missing either way is
tagged a plain query. -/
theorem missing_field_defaults (r : CapturedRow) :
    (r.timestamp = CsvField.absent → (formatRow r).timestamp = "N/A") ∧
      (r.qname = CsvField.absent → (formatRow r).qname = "N/A") ∧
      (r.src_ip = CsvField.absent → (formatRow r).src_ip = "N/A") ∧
      (r.dst_ip = CsvField.absent → (formatRow r).dst_ip = "N/A") ∧
      (r.is_response = CsvField.absent →
        (formatRow r).is_response = "0" ∧ (formatRow r).query_type = "QUERY") ∧
      (r.timestamp = CsvField.noneVal → (formatRow r).timestamp = "None") ∧
      (r.qname = CsvField.noneVal → (formatRow r).qname = "None") ∧
      (r.src_ip = CsvField.noneVal → (formatRow r).src_ip = "None") ∧
      (r.dst_ip = CsvField.noneVal → (formatRow r).dst_ip = "None") ∧
      (r.is_response = CsvField.noneVal →
        (formatRow r).is_response = "None" ∧ (formatRow r).query_type = "QUERY") := by
  refine ⟨fun h => ?_, fun h => ?_, fun h => ?_, fun h => ?_, fun h => ?_,
    fun h => ?_, fun h => ?_, fun h => ?_, fun h => ?_, fun h => ?_⟩ <;>
    simp [formatRow, pyGet, render, h]

/-- C8 amended witness: the header-absent row formats to the "N/A"
sentinels with "0"/"QUERY" for `is_response`, and the short-row case
formats to "None" texts, still tagged "QUERY". -/
theorem missing_field_defaults_witness :
    (formatRow emptyRow).timestamp = "N/A" ∧
      ((formatRow emptyRow).is_response = "0" ∧
        (formatRow emptyRow).query_type = "QUERY") ∧
      (formatRow shortRow).timestamp = "None" ∧
      ((formatRow shortRow).is_response = "None" ∧
        (formatRow shortRow).query_type = "QUERY") :=
  ⟨(missing_field_defaults emptyRow).1 rfl,
   (missing_field_defaults emptyRow).2.2.2.2.1 rfl,
   (missing_field_defaults shortRow).2.2.2.2.2.1 rfl,
   (missing_field_defaults shortRow).2.2.2.2.2.2.2.2.2 rfl⟩

/-- C9: a poll against an absent file, an unreadable file, or a file whose
row count has not grown past `last_capture_count` returns no rows, raises
nothing, and leaves the state unchanged. -/
theorem tail_no_change (st : GuiState) (rows : List CapturedRow)
    (h : rows.length ≤ st.last_capture_count) :
    load_captured_queries st ReadResult.absent = ([], st) ∧
      load_captured_queries st ReadResult.unreadable = ([], st) ∧
      load_captured_queries st (ReadResult.ok rows) = ([], st) := by
  refine ⟨rfl, rfl, ?_⟩
  have hn : ¬ st.last_capture_count < rows.length := Nat.not_lt.mpr h
  simp [load_captured_queries, hn]

/-- C9 witness: with `last_capture_count = 5`, an absent file, an
unreadable file, and a one-row file all return empty and leave the state
untouched. -/
theorem tail_no_change_witness :
    load_captured_queries ⟨none, false, 5⟩ ReadResult.absent =
        ([], ⟨none, false, 5⟩) ∧
      load_captured_queries ⟨none, false, 5⟩ ReadResult.unreadable =
        ([], ⟨none, false, 5⟩) ∧
      load_captured_queries ⟨none, false, 5⟩ (ReadResult.ok [sampleRow0]) =
        ([], ⟨none, false, 5⟩) :=
  tail_no_change ⟨none, false, 5⟩ [sampleRow0] (by decide)

/-- C10: the suspicious classification is a case-sensitive exact-substring
test: a label containing neither "Suspicious" nor "🔴" as an exact
substring is not counted as suspicious. -/
theorem suspicious_case_sensitive (label : String)
    (h1 : strContains label "Suspicious" = false)
    (h2 : strContains label "🔴" = false) :
    isSuspicious label = false := by
  simp [isSuspicious, h1, h2]

/-- C10 witness: the lowercase label "suspicious" and the uppercase label
"SUSPICIOUS" are not classified as suspicious. -/
theorem suspicious_case_sensitive_witness :
    isSuspicious "suspicious" = false ∧ isSuspicious "SUSPICIOUS" = false :=
  ⟨suspicious_case_sensitive "suspicious" (by decide) (by decide),
   suspicious_case_sensitive "SUSPICIOUS" (by decide) (by decide)⟩
